import Mathlib

/-!
Shallow embedding of `vnpy_longport/longport_gateway.py` (the LongPort
gateway adapter) and proofs about its specified behaviour.

Modelling conventions:
* The SDK's `Decimal` values and Python floats are both modelled as `Rat`;
  the Python `float(...)` conversion applied to `Decimal` fields is the
  function `pyFloat` (modelled as exact — no claim here depends on
  floating-point rounding).
* `datetime.now()` is an explicit `Nat` timestamp parameter.
* The two SDK session contexts (`quote_ctx`, `trade_ctx`) are modelled by
  the booleans `quoteCtxInit` / `tradeCtxInit` (Python's
  `if not self.quote_ctx` guard).
* Each SDK round trip is modelled by an `Except String α` argument: `.ok`
  for a normal return, `.error` for a raised exception.  A Python method
  that catches exceptions inspects this argument; `subscribe`, which has no
  `try`, returns `Except` itself so the exception propagates.
* Events emitted through the host framework (`on_tick`, `on_order`,
  `on_account`, `on_position`, `write_log`) are collected in an ordered
  `List Event`.  The dynamic payload interpolated into log strings is
  elided (no claim inspects log text beyond its presence).
* Python `dict` is modelled as an association list with insert-or-replace
  (`dictInsert`) preserving the position of an existing key, matching
  Python's dictionary update semantics.
-/

namespace LongPort

/-- Python `str.endswith(suffix)`: the character sequence of `suffix` is a
suffix of the character sequence of `s`. -/
def pyEndswith (s suffix : String) : Bool :=
  decide (suffix.data <:+ s.data)

/-- `float(d)` applied to an SDK `Decimal` value, modelled exactly over `Rat`. -/
def pyFloat (d : Rat) : Rat := d

/-- `vnpy.trader.constant.Exchange` values relevant to the adapter (the
enum has more members; the extra constructors stand for "any other
exchange"). -/
inductive Exchange where
  | SEHK
  | NYSE
  | SSE
  | SZSE
  | NASDAQ
  deriving DecidableEq, Repr

/-- `vnpy.trader.constant.OrderType` (host order types). -/
inductive OrderType where
  | LIMIT
  | MARKET
  | STOP
  | FAK
  | FOK
  deriving DecidableEq, Repr

/-- `longport.openapi.OrderType` (SDK order types used by the adapter). -/
inductive LongPortOrderType where
  | LO
  | MO
  deriving DecidableEq, Repr

/-- `vnpy.trader.constant.Direction`. -/
inductive Direction where
  | LONG
  | SHORT
  | NET
  deriving DecidableEq, Repr

/-- `longport.openapi.OrderSide`. -/
inductive OrderSide where
  | Buy
  | Sell
  deriving DecidableEq, Repr

/-- `vnpy.trader.constant.Status` (order status values). -/
inductive Status where
  | SUBMITTING
  | NOTTRADED
  | PARTTRADED
  | ALLTRADED
  | CANCELLED
  | REJECTED
  deriving DecidableEq, Repr

/-- `vnpy.trader.constant.Interval`. -/
inductive Interval where
  | MINUTE
  | HOUR
  | DAILY
  | WEEKLY
  | TICK
  deriving DecidableEq, Repr

/-- `longport.openapi.Period` (SDK candlestick periods used). -/
inductive Period where
  | Min1
  | Hour1
  | Day
  deriving DecidableEq, Repr

/-- `vnpy.trader.object.TickData` (fields touched by this adapter;
numeric fields default to 0 as in the host dataclass). -/
structure TickData where
  symbol : String
  exchange : Exchange
  datetime : Nat
  gatewayName : String
  lastPrice : Rat := 0
  volume : Rat := 0
  openPrice : Rat := 0
  highPrice : Rat := 0
  lowPrice : Rat := 0
  preClose : Rat := 0
  deriving DecidableEq, Repr

/-- `vnpy.trader.object.OrderData` (fields set by `send_order`). -/
structure OrderData where
  symbol : String
  exchange : Exchange
  orderid : String
  type : OrderType
  direction : Direction
  price : Rat
  volume : Rat
  status : Status
  datetime : Nat
  gatewayName : String
  deriving DecidableEq, Repr

/-- The host framework's composite order identifier:
`vnpy.trader.object.OrderData.__post_init__` sets
`vt_orderid = f"{gateway_name}.{orderid}"`. -/
def OrderData.vtOrderid (o : OrderData) : String :=
  o.gatewayName ++ "." ++ o.orderid

/-- `vnpy.trader.object.AccountData` (fields set by `query_account`). -/
structure AccountData where
  accountid : String
  balance : Rat
  frozen : Rat
  gatewayName : String
  deriving DecidableEq, Repr

/-- `vnpy.trader.object.PositionData` (fields set by `query_position`). -/
structure PositionData where
  symbol : String
  exchange : Exchange
  direction : Direction
  volume : Rat
  price : Rat
  pnl : Rat
  gatewayName : String
  deriving DecidableEq, Repr

/-- `vnpy.trader.object.BarData` (fields set by `query_history`). -/
structure BarData where
  symbol : String
  exchange : Exchange
  datetime : Nat
  interval : Interval
  openPrice : Rat
  highPrice : Rat
  lowPrice : Rat
  closePrice : Rat
  volume : Rat
  gatewayName : String
  deriving DecidableEq, Repr

/-- `vnpy.trader.object.SubscribeRequest`. -/
structure SubscribeRequest where
  symbol : String
  exchange : Exchange
  deriving DecidableEq, Repr

/-- `vnpy.trader.object.OrderRequest` (fields read by `send_order`). -/
structure OrderRequest where
  symbol : String
  exchange : Exchange
  type : OrderType
  direction : Direction
  price : Rat
  volume : Rat
  deriving DecidableEq, Repr

/-- `vnpy.trader.object.CancelRequest` (field read by `cancel_order`). -/
structure CancelRequest where
  orderid : String
  deriving DecidableEq, Repr

/-- `vnpy.trader.object.HistoryRequest` (fields read by `query_history`). -/
structure HistoryRequest where
  symbol : String
  exchange : Exchange
  interval : Interval
  deriving DecidableEq, Repr

/-- SDK response of `trade_ctx.submit_order` (the adapter reads `order_id`). -/
structure SubmitOrderResponse where
  orderId : String
  deriving DecidableEq, Repr

/-- SDK per-currency cash entry (`cash_info`) of an account balance. -/
structure CashInfo where
  currency : String
  withdrawCash : Rat
  frozenCash : Rat
  availableCash : Rat
  deriving DecidableEq, Repr

/-- SDK account-balance entry (`trade_ctx.account_balance()` returns a list
of these; the adapter reads `cash_infos`). -/
structure Account where
  cashInfos : List CashInfo
  deriving DecidableEq, Repr

/-- SDK stock position (fields read by `query_position`). -/
structure StockPosition where
  symbol : String
  quantity : Rat
  avgCost : Rat
  unrealizedPnl : Rat
  deriving DecidableEq, Repr

/-- SDK position channel (`positions.channels[i]`). -/
structure PositionChannel where
  positions : List StockPosition
  deriving DecidableEq, Repr

/-- SDK response of `trade_ctx.stock_positions()`. -/
structure StockPositionsResponse where
  channels : List PositionChannel
  deriving DecidableEq, Repr

/-- SDK candlestick (fields read by `query_history`; the SDK field named
`open` is written `«open»` because `open` is a Lean keyword). -/
structure Candlestick where
  timestamp : Nat
  «open» : Rat
  high : Rat
  low : Rat
  close : Rat
  volume : Rat
  deriving DecidableEq, Repr

/-- SDK push-quote payload (fields read by `on_quote`; the SDK field named
`open` is written `«open»`). -/
structure PushQuote where
  lastDone : Rat
  volume : Rat
  «open» : Rat
  high : Rat
  low : Rat
  prevClose : Rat
  deriving DecidableEq, Repr

/-- An event emitted through the host framework's event engine. -/
inductive Event where
  | tick (t : TickData)
  | order (o : OrderData)
  | account (a : AccountData)
  | position (p : PositionData)
  | log (msg : String)
  deriving DecidableEq, Repr

/-- The order events among an emitted event list. -/
def orderEvents (es : List Event) : List OrderData :=
  es.filterMap fun e => match e with
    | .order o => some o
    | _ => none

/-- The account events among an emitted event list. -/
def accountEvents (es : List Event) : List AccountData :=
  es.filterMap fun e => match e with
    | .account a => some a
    | _ => none

/-- The tick events among an emitted event list. -/
def tickEvents (es : List Event) : List TickData :=
  es.filterMap fun e => match e with
    | .tick t => some t
    | _ => none

/-- The position events among an emitted event list. -/
def positionEvents (es : List Event) : List PositionData :=
  es.filterMap fun e => match e with
    | .position p => some p
    | _ => none

/-- Python `dict` lookup (`d.get(k)`). -/
def dictGet {α : Type} (d : List (String × α)) (k : String) : Option α :=
  match d with
  | [] => none
  | (k', v) :: rest => if k' = k then some v else dictGet rest k

/-- Python `dict` assignment (`d[k] = v`): replaces an existing binding in
place, otherwise appends (Python dicts preserve insertion order). -/
def dictInsert {α : Type} (d : List (String × α)) (k : String) (v : α) :
    List (String × α) :=
  match d with
  | [] => [(k, v)]
  | (k', v') :: rest =>
      if k' = k then (k, v) :: rest else (k', v') :: dictInsert rest k v

/-- The keys of a modelled Python `dict`. -/
def dictKeys {α : Type} (d : List (String × α)) : List String :=
  d.map Prod.fst

/-- Adapter-owned state of `LongPortGateway`: the two SDK contexts
(modelled as initialisation flags), the tick cache `self.ticks`, the order
map `self.orders`, and the (never-written) `self.accounts` map.
`gateway_name` is fixed at construction. -/
structure GatewayState where
  gatewayName : String
  quoteCtxInit : Bool
  tradeCtxInit : Bool
  ticks : List (String × TickData)
  orders : List (String × OrderData)
  accounts : List (String × AccountData)
  deriving DecidableEq, Repr

/-- `LongPortGateway.__init__`: contexts unset, all maps empty. -/
def initState (gatewayName : String) : GatewayState :=
  { gatewayName := gatewayName
    quoteCtxInit := false
    tradeCtxInit := false
    ticks := []
    orders := []
    accounts := [] }

/-- `LongPortGateway._convert_symbol`. -/
def _convert_symbol (symbol : String) (exchange : Exchange) : String :=
  if exchange = Exchange.SEHK then
    symbol ++ ".HK"
  else if exchange = Exchange.NYSE then
    symbol ++ ".US"
  else
    symbol

/-- `LongPortGateway._convert_order_type`. -/
def _convert_order_type (orderType : OrderType) : LongPortOrderType :=
  if orderType = OrderType.LIMIT then
    LongPortOrderType.LO
  else if orderType = OrderType.MARKET then
    LongPortOrderType.MO
  else
    LongPortOrderType.LO

/-- `LongPortGateway._convert_direction`. -/
def _convert_direction (direction : Direction) : OrderSide :=
  if direction = Direction.LONG then
    OrderSide.Buy
  else if direction = Direction.SHORT then
    OrderSide.Sell
  else
    OrderSide.Buy

/-- `LongPortGateway._convert_interval`. -/
def _convert_interval (interval : Interval) : Period :=
  if interval = Interval.MINUTE then
    Period.Min1
  else if interval = Interval.HOUR then
    Period.Hour1
  else if interval = Interval.DAILY then
    Period.Day
  else
    Period.Day

/-- `LongPortGateway._get_exchange`. -/
def _get_exchange (symbol : String) : Exchange :=
  if pyEndswith symbol ".HK" then
    Exchange.SEHK
  else if pyEndswith symbol ".US" then
    Exchange.NYSE
  else
    Exchange.SEHK

/-- `LongPortGateway.connect`: the whole body is one `try`.  `sdk` models
the SDK side (config load, context construction, callback registration):
`.ok` sets both contexts, `.error` is caught and logged with the state
unchanged (the model takes the failure to happen before any context is
assigned). -/
def connect (st : GatewayState) (sdk : Except String Unit) :
    GatewayState × List Event :=
  match sdk with
  | .error _ => (st, [Event.log "长桥接口连接失败"])
  | .ok _ =>
      ({ st with quoteCtxInit := true, tradeCtxInit := true },
       [Event.log "长桥接口连接成功"])

/-- `LongPortGateway.close`: calls `close()` on the SDK contexts; no
adapter state changes, no events. -/
def close (st : GatewayState) : GatewayState × List Event :=
  (st, [])

/-- `LongPortGateway.subscribe`.  No `try` surrounds the SDK call, so an
SDK exception propagates to the caller (`.error`); in that case the tick
record is never created. -/
def subscribe (st : GatewayState) (req : SubscribeRequest)
    (sdk : Except String Unit) (now : Nat) :
    Except String (GatewayState × List Event) :=
  if !st.quoteCtxInit then
    .ok (st, [])
  else
    let symbol := _convert_symbol req.symbol req.exchange
    match sdk with
    | .error e => .error e
    | .ok _ =>
        let tick : TickData :=
          { symbol := req.symbol
            exchange := req.exchange
            datetime := now
            gatewayName := st.gatewayName }
        .ok ({ st with ticks := dictInsert st.ticks symbol tick }, [])

/-- `LongPortGateway.send_order`.  `sdk` models
`trade_ctx.submit_order(...)`; on success the order snapshot is stored
under the broker order id, one order event is emitted and the host
composite id `vt_orderid` is returned; on exception the failure is logged
and `""` is returned. -/
def send_order (st : GatewayState) (req : OrderRequest)
    (sdk : Except String SubmitOrderResponse) (now : Nat) :
    GatewayState × List Event × String :=
  if !st.tradeCtxInit then
    (st, [], "")
  else
    let _symbol := _convert_symbol req.symbol req.exchange
    let _order_type := _convert_order_type req.type
    let _side := _convert_direction req.direction
    match sdk with
    | .error _ => (st, [Event.log "委托下单失败"], "")
    | .ok resp =>
        let order : OrderData :=
          { symbol := req.symbol
            exchange := req.exchange
            orderid := resp.orderId
            type := req.type
            direction := req.direction
            price := req.price
            volume := req.volume
            status := Status.SUBMITTING
            datetime := now
            gatewayName := st.gatewayName }
        ({ st with orders := dictInsert st.orders resp.orderId order },
         [Event.order order],
         order.vtOrderid)

/-- `LongPortGateway.cancel_order`: forwards the order id; an SDK
exception is caught and logged; no state change either way. -/
def cancel_order (st : GatewayState) (req : CancelRequest)
    (sdk : Except String Unit) : GatewayState × List Event :=
  if !st.tradeCtxInit then
    (st, [])
  else
    let _orderid := req.orderid
    match sdk with
    | .error _ => (st, [Event.log "委托撤单失败"])
    | .ok _ => (st, [])

/-- `LongPortGateway.query_account`.  `sdk` models
`trade_ctx.account_balance()`.  Only the first returned account is used
(`account = accounts[0]`); one account event is emitted per entry of its
`cash_infos`, with `withdraw_cash` as balance and `frozen_cash` as
frozen. -/
def query_account (st : GatewayState)
    (sdk : Except String (List Account)) : GatewayState × List Event :=
  if !st.tradeCtxInit then
    (st, [Event.log "查询资金失败：交易上下文未初始化"])
  else
    match sdk with
    | .error _ =>
        (st, [Event.log "开始获取账户信息...", Event.log "查询资金失败"])
    | .ok accounts =>
        let logs := [Event.log "开始获取账户信息...", Event.log "获取到账户信息"]
        match accounts with
        | [] => (st, logs ++ [Event.log "未获取到账户信息"])
        | account :: _ =>
            let emitted := account.cashInfos.flatMap fun cash_info =>
              let account_data : AccountData :=
                { accountid := cash_info.currency
                  balance := pyFloat cash_info.withdrawCash
                  frozen := pyFloat cash_info.frozenCash
                  gatewayName := st.gatewayName }
              [Event.log "创建资金对象",
               Event.account account_data,
               Event.log "资金对象已发送到事件引擎"]
            (st, logs ++ emitted)

/-- `LongPortGateway.query_position`.  `sdk` models
`trade_ctx.stock_positions()`; one position event per position of each
channel, always direction `LONG`. -/
def query_position (st : GatewayState)
    (sdk : Except String StockPositionsResponse) :
    GatewayState × List Event :=
  if !st.tradeCtxInit then
    (st, [Event.log "查询持仓失败：交易上下文未初始化"])
  else
    match sdk with
    | .error _ =>
        (st, [Event.log "开始获取持仓信息...", Event.log "查询持仓失败"])
    | .ok resp =>
        let logs := [Event.log "开始获取持仓信息...", Event.log "获取到持仓信息"]
        let emitted := resp.channels.flatMap fun channel =>
          channel.positions.flatMap fun pos =>
            let position : PositionData :=
              { symbol := pos.symbol
                exchange := _get_exchange pos.symbol
                direction := Direction.LONG
                volume := pyFloat pos.quantity
                price := pyFloat pos.avgCost
                pnl := pyFloat pos.unrealizedPnl
                gatewayName := st.gatewayName }
            [Event.log "创建持仓对象",
             Event.position position,
             Event.log "持仓对象已发送到事件引擎"]
        (st, logs ++ emitted)

/-- `LongPortGateway.query_history`.  `sdk` models
`quote_ctx.candlesticks(symbol, period, 100, NoAdjust)`; on success each
SDK candlestick becomes one `BarData` in order; any exception yields
`[]`. -/
def query_history (st : GatewayState) (req : HistoryRequest)
    (sdk : Except String (List Candlestick)) :
    GatewayState × List Event × List BarData :=
  if !st.quoteCtxInit then
    (st, [Event.log "查询历史数据失败：行情上下文未初始化"], [])
  else
    let _symbol := _convert_symbol req.symbol req.exchange
    let _period := _convert_interval req.interval
    match sdk with
    | .error _ => (st, [Event.log "查询历史数据失败"], [])
    | .ok bars =>
        let result := bars.map fun bar =>
          ({ symbol := req.symbol
             exchange := req.exchange
             datetime := bar.timestamp
             interval := req.interval
             openPrice := pyFloat bar.«open»
             highPrice := pyFloat bar.high
             lowPrice := pyFloat bar.low
             closePrice := pyFloat bar.close
             volume := pyFloat bar.volume
             gatewayName := st.gatewayName } : BarData)
        (st, [Event.log "转换后的历史数据"], result)

/-- `LongPortGateway.on_quote` (push callback): looks up the cached tick
by SDK symbol; absent symbols are silently dropped; otherwise the cached
record is mutated in place (modelled as replacement at the same key) and
one tick event is emitted. -/
def on_quote (st : GatewayState) (symbol : String) (event : PushQuote)
    (now : Nat) : GatewayState × List Event :=
  match dictGet st.ticks symbol with
  | none => (st, [])
  | some tick =>
      let tick' : TickData :=
        { tick with
          lastPrice := pyFloat event.lastDone
          volume := pyFloat event.volume
          openPrice := pyFloat event.«open»
          highPrice := pyFloat event.high
          lowPrice := pyFloat event.low
          preClose := pyFloat event.prevClose
          datetime := now }
      ({ st with ticks := dictInsert st.ticks symbol tick' },
       [Event.tick tick'])

/-- One host-visible invocation of an adapter operation, with the SDK
outcome it encounters embedded as data. -/
inductive Op where
  | connect (sdk : Except String Unit)
  | close
  | subscribe (req : SubscribeRequest) (sdk : Except String Unit) (now : Nat)
  | send_order (req : OrderRequest) (sdk : Except String SubmitOrderResponse)
      (now : Nat)
  | cancel_order (req : CancelRequest) (sdk : Except String Unit)
  | query_account (sdk : Except String (List Account))
  | query_position (sdk : Except String StockPositionsResponse)
  | query_history (req : HistoryRequest) (sdk : Except String (List Candlestick))
  | on_quote (symbol : String) (event : PushQuote) (now : Nat)

/-- State transition of one operation.  A `subscribe` whose SDK call
raises leaves the state as it was (the exception propagates past the
method before the tick record is created). -/
def step (st : GatewayState) (op : Op) : GatewayState :=
  match op with
  | .connect sdk => (connect st sdk).1
  | .close => (close st).1
  | .subscribe req sdk now =>
      match subscribe st req sdk now with
      | .ok (st', _) => st'
      | .error _ => st
  | .send_order req sdk now => (send_order st req sdk now).1
  | .cancel_order req sdk => (cancel_order st req sdk).1
  | .query_account sdk => (query_account st sdk).1
  | .query_position sdk => (query_position st sdk).1
  | .query_history req sdk => (query_history st req sdk).1
  | .on_quote symbol event now => (on_quote st symbol event now).1

/-- Run a sequence of operations from a state. -/
def run (st : GatewayState) (ops : List Op) : GatewayState :=
  ops.foldl step st

/-- A sample connected state used to instantiate theorems on concrete
inputs. -/
def sampleConnected : GatewayState :=
  { initState "LONGPORT" with quoteCtxInit := true, tradeCtxInit := true }

/-- A sample order request. -/
def sampleOrderReq : OrderRequest :=
  { symbol := "700"
    exchange := Exchange.SEHK
    type := OrderType.LIMIT
    direction := Direction.LONG
    price := 100
    volume := 2 }

/-- A sample history request. -/
def sampleHistoryReq : HistoryRequest :=
  { symbol := "700", exchange := Exchange.SEHK, interval := Interval.DAILY }

theorem dictGet_dictInsert_self {α : Type} (d : List (String × α)) (k : String)
    (v : α) : dictGet (dictInsert d k v) k = some v := by
  induction d with
  | nil => simp [dictInsert, dictGet]
  | cons p rest ih =>
      obtain ⟨k', v'⟩ := p
      by_cases h : k' = k <;> simp [dictInsert, dictGet, h, ih]

theorem mem_dictKeys_dictInsert {α : Type} (d : List (String × α))
    (k k' : String) (v : α) (h : k' ∈ dictKeys d) :
    k' ∈ dictKeys (dictInsert d k v) := by
  induction d with
  | nil => simp [dictKeys] at h
  | cons p rest ih =>
      obtain ⟨k₀, v₀⟩ := p
      simp only [dictKeys, List.map_cons, List.mem_cons] at h
      by_cases hk : k₀ = k
      · subst hk
        simpa [dictInsert, dictKeys] using h
      · simp only [dictInsert, if_neg hk, dictKeys, List.map_cons, List.mem_cons]
        rcases h with h | h
        · exact Or.inl h
        · exact Or.inr (ih (by simpa [dictKeys] using h))

theorem accountEvents_append (es fs : List Event) :
    accountEvents (es ++ fs) = accountEvents es ++ accountEvents fs := by
  simp [accountEvents]

theorem accountEvents_cash_emits {β : Type} (f : β → AccountData)
    (m₁ m₂ : String) (l : List β) :
    accountEvents
      (l.flatMap fun b => [Event.log m₁, Event.account (f b), Event.log m₂]) =
      l.map f := by
  induction l with
  | nil => rfl
  | cons b bs ih => simp [accountEvents] at ih ⊢; exact ih

theorem positionEvents_append (es fs : List Event) :
    positionEvents (es ++ fs) = positionEvents es ++ positionEvents fs := by
  simp [positionEvents]

theorem pyEndswith_US_not_HK (s : String)
    (h : pyEndswith s ".US" = true) : pyEndswith s ".HK" = false := by
  unfold pyEndswith at h ⊢
  rw [decide_eq_true_iff] at h
  rw [decide_eq_false_iff_not]
  intro hk
  have hus : (".US").data <:+ s.data := h
  rw [List.suffix_iff_eq_drop] at hus hk
  have heq : (".US").data = (".HK").data := by
    simp only [String.data] at hus hk ⊢
    exact hus.trans hk.symm
  simp at heq

/-- C6: for every symbol string `s`, `_convert_symbol` yields `s ++ ".HK"`
for the Hong Kong exchange (SEHK) and `s ++ ".US"` for the New York
exchange (NYSE); every other exchange value returns `s` unchanged.  The
function is a total Lean function, so it is pure and raises on no
exchange value. -/
theorem convert_symbol_spec (s : String) :
    _convert_symbol s Exchange.SEHK = s ++ ".HK" ∧
    _convert_symbol s Exchange.NYSE = s ++ ".US" ∧
    ∀ ex : Exchange, ex ≠ Exchange.SEHK → ex ≠ Exchange.NYSE →
      _convert_symbol s ex = s := by
  refine ⟨rfl, rfl, ?_⟩
  intro ex h1 h2
  simp [_convert_symbol, h1, h2]

/-- Witness for C6 at concrete inputs: symbol "700" with the Hong Kong,
New York and Shanghai exchanges. -/
theorem convert_symbol_spec_witness :
    _convert_symbol "700" Exchange.SEHK = "700" ++ ".HK" ∧
    _convert_symbol "AAPL" Exchange.NYSE = "AAPL" ++ ".US" ∧
    _convert_symbol "600519" Exchange.SSE = "600519" :=
  ⟨(convert_symbol_spec "700").1,
   (convert_symbol_spec "AAPL").2.1,
   (convert_symbol_spec "600519").2.2 Exchange.SSE (by decide) (by decide)⟩

/-- C7: `_get_exchange` returns SEHK when the symbol ends in ".HK", NYSE
when it ends in ".US", and SEHK as the default for every other string. -/
theorem get_exchange_spec (s : String) :
    (pyEndswith s ".HK" = true → _get_exchange s = Exchange.SEHK) ∧
    (pyEndswith s ".US" = true → _get_exchange s = Exchange.NYSE) ∧
    (pyEndswith s ".HK" = false → pyEndswith s ".US" = false →
      _get_exchange s = Exchange.SEHK) := by
  refine ⟨?_, ?_, ?_⟩
  · intro h
    simp [_get_exchange, h]
  · intro h
    simp [_get_exchange, pyEndswith_US_not_HK s h, h]
  · intro h1 h2
    simp [_get_exchange, h1, h2]

/-- Witness for C7 at concrete inputs: "700.HK", "AAPL.US" and "BTCUSD". -/
theorem get_exchange_spec_witness :
    _get_exchange "700.HK" = Exchange.SEHK ∧
    _get_exchange "AAPL.US" = Exchange.NYSE ∧
    _get_exchange "BTCUSD" = Exchange.SEHK :=
  ⟨(get_exchange_spec "700.HK").1 (by decide),
   (get_exchange_spec "AAPL.US").2.1 (by decide),
   (get_exchange_spec "BTCUSD").2.2 (by decide) (by decide)⟩

/-- C8: a push-quote callback for a symbol absent from the tick cache
emits no event and leaves the state (in particular the tick cache)
unchanged; `on_quote` is a total function, so no exception is raised. -/
theorem on_quote_unsubscribed (st : GatewayState) (symbol : String)
    (event : PushQuote) (now : Nat)
    (h : dictGet st.ticks symbol = none) :
    on_quote st symbol event now = (st, []) := by
  simp [on_quote, h]

/-- Witness for C8: a quote push for "700.HK" against a freshly
constructed gateway (empty tick cache). -/
theorem on_quote_unsubscribed_witness :
    on_quote (initState "LONGPORT") "700.HK"
      { lastDone := 1, volume := 2, «open» := 3, high := 4, low := 5,
        prevClose := 6 } 7 =
      (initState "LONGPORT", []) :=
  on_quote_unsubscribed (initState "LONGPORT") "700.HK"
    { lastDone := 1, volume := 2, «open» := 3, high := 4, low := 5,
      prevClose := 6 } 7 rfl

/-- C4: with the quote context initialised, an exception in the SDK
subscription call propagates out of `subscribe` (the returned computation
is the error itself), and the adapter state — in particular the tick
cache — is unchanged: the tick record is never inserted. -/
theorem subscribe_error_propagates (st : GatewayState)
    (req : SubscribeRequest) (e : String) (now : Nat)
    (hq : st.quoteCtxInit = true) :
    subscribe st req (.error e) now = .error e ∧
    step st (Op.subscribe req (.error e) now) = st := by
  constructor
  · simp [subscribe, hq]
  · simp [step, subscribe, hq]

/-- Witness for C4: subscribing to "700"/SEHK on a connected gateway with
an SDK failure "network down". -/
theorem subscribe_error_propagates_witness :
    subscribe sampleConnected { symbol := "700", exchange := Exchange.SEHK }
      (.error "network down") 0 = .error "network down" ∧
    step sampleConnected
      (Op.subscribe { symbol := "700", exchange := Exchange.SEHK }
        (.error "network down") 0) = sampleConnected :=
  subscribe_error_propagates sampleConnected
    { symbol := "700", exchange := Exchange.SEHK } "network down" 0 rfl

theorem query_account_ok_cons (st : GatewayState)
    (ht : st.tradeCtxInit = true) (account : Account) (rest : List Account) :
    accountEvents (query_account st (.ok (account :: rest))).2 =
      account.cashInfos.map fun cash_info =>
        { accountid := cash_info.currency
          balance := pyFloat cash_info.withdrawCash
          frozen := pyFloat cash_info.frozenCash
          gatewayName := st.gatewayName } := by
  simp only [query_account, ht, Bool.not_true, Bool.false_eq_true, if_false]
  rw [accountEvents_append]
  have h0 : accountEvents
      [Event.log "开始获取账户信息...", Event.log "获取到账户信息"] = [] := rfl
  rw [h0, List.nil_append]
  exact accountEvents_cash_emits _ _ _ _

theorem query_account_ok_nil (st : GatewayState)
    (ht : st.tradeCtxInit = true) :
    accountEvents (query_account st (.ok [])).2 = [] := by
  simp [query_account, ht, accountEvents]

/-- C2: with the trade context initialised, a balance response with at
least one account makes `query_account` emit exactly one account event
per entry of the FIRST account's cash-info list — account id is the
entry's currency, balance its withdraw cash, frozen its frozen cash — and
a response with zero accounts emits zero account events (`query_account`
is a total function, so no exception is raised). -/
theorem query_account_spec (st : GatewayState) (ht : st.tradeCtxInit = true) :
    (∀ (account : Account) (rest : List Account),
      accountEvents (query_account st (.ok (account :: rest))).2 =
        account.cashInfos.map fun cash_info =>
          { accountid := cash_info.currency
            balance := pyFloat cash_info.withdrawCash
            frozen := pyFloat cash_info.frozenCash
            gatewayName := st.gatewayName }) ∧
    accountEvents (query_account st (.ok [])).2 = [] :=
  ⟨fun account rest => query_account_ok_cons st ht account rest,
   query_account_ok_nil st ht⟩

/-- Witness for C2: one account holding one HKD cash entry, and the
zero-account response. -/
theorem query_account_spec_witness :
    accountEvents (query_account sampleConnected
        (.ok [{ cashInfos := [{ currency := "HKD", withdrawCash := 100,
                                frozenCash := 5, availableCash := 95 }] }])).2 =
      [{ accountid := "HKD", balance := pyFloat 100, frozen := pyFloat 5,
         gatewayName := "LONGPORT" }] ∧
    accountEvents (query_account sampleConnected (.ok [])).2 = [] :=
  ⟨(query_account_spec sampleConnected rfl).1
      { cashInfos := [{ currency := "HKD", withdrawCash := 100,
                        frozenCash := 5, availableCash := 95 }] } [],
   (query_account_spec sampleConnected rfl).2⟩

/-- C1: with the trade context initialised, a successful SDK submit makes
`send_order` return the composite id `gateway_name ++ "." ++ order_id`
(never the empty string), emit exactly one order event whose status is
SUBMITTING, and record the order snapshot under the broker order id; an
SDK exception makes it return `""`, emit zero order events and leave the
whole state (hence the order map) unchanged. -/
theorem send_order_spec (st : GatewayState) (req : OrderRequest) (now : Nat)
    (ht : st.tradeCtxInit = true) :
    (∀ resp : SubmitOrderResponse,
      (send_order st req (.ok resp) now).2.2 =
          st.gatewayName ++ "." ++ resp.orderId ∧
      (send_order st req (.ok resp) now).2.2 ≠ "" ∧
      orderEvents (send_order st req (.ok resp) now).2.1 =
        [{ symbol := req.symbol, exchange := req.exchange,
           orderid := resp.orderId, type := req.type,
           direction := req.direction, price := req.price,
           volume := req.volume, status := Status.SUBMITTING,
           datetime := now, gatewayName := st.gatewayName }] ∧
      dictGet (send_order st req (.ok resp) now).1.orders resp.orderId =
        some { symbol := req.symbol, exchange := req.exchange,
               orderid := resp.orderId, type := req.type,
               direction := req.direction, price := req.price,
               volume := req.volume, status := Status.SUBMITTING,
               datetime := now, gatewayName := st.gatewayName }) ∧
    (∀ e : String,
      (send_order st req (.error e) now).2.2 = "" ∧
      orderEvents (send_order st req (.error e) now).2.1 = [] ∧
      (send_order st req (.error e) now).1 = st) := by
  constructor
  · intro resp
    refine ⟨?_, ?_, ?_, ?_⟩
    · simp [send_order, ht, OrderData.vtOrderid]
    · simp only [send_order, ht, Bool.not_true, Bool.false_eq_true, if_false,
        OrderData.vtOrderid]
      intro hc
      have hlen := congrArg String.length hc
      have h1 : (".").length = 1 := rfl
      simp [String.length_append, h1] at hlen
    · simp [send_order, ht, orderEvents]
    · simp only [send_order, ht, Bool.not_true, Bool.false_eq_true, if_false]
      exact dictGet_dictInsert_self st.orders resp.orderId _
  · intro e
    refine ⟨?_, ?_, ?_⟩ <;> simp [send_order, ht, orderEvents]

/-- Witness for C1: order "9001" accepted, and an SDK rejection, on a
connected gateway. -/
theorem send_order_spec_witness :
    (send_order sampleConnected sampleOrderReq
        (.ok { orderId := "9001" }) 5).2.2 = "LONGPORT" ++ "." ++ "9001" ∧
    (send_order sampleConnected sampleOrderReq (.error "rejected") 5).2.2 = "" ∧
    orderEvents (send_order sampleConnected sampleOrderReq
        (.error "rejected") 5).2.1 = [] :=
  ⟨((send_order_spec sampleConnected sampleOrderReq 5 rfl).1
      { orderId := "9001" }).1,
   ((send_order_spec sampleConnected sampleOrderReq 5 rfl).2 "rejected").1,
   ((send_order_spec sampleConnected sampleOrderReq 5 rfl).2 "rejected").2.1⟩

/-- C3: with the quote context initialised, a successful candlestick call
makes `query_history` return one `BarData` per SDK candlestick in SDK
order — the request's symbol, exchange and interval carried through and
the numeric fields converted by `pyFloat` — and any SDK exception makes
it return `[]`. -/
theorem query_history_spec (st : GatewayState) (req : HistoryRequest)
    (hq : st.quoteCtxInit = true) :
    (∀ bars : List Candlestick,
      (query_history st req (.ok bars)).2.2 =
        bars.map fun bar =>
          ({ symbol := req.symbol, exchange := req.exchange,
             datetime := bar.timestamp, interval := req.interval,
             openPrice := pyFloat bar.«open», highPrice := pyFloat bar.high,
             lowPrice := pyFloat bar.low, closePrice := pyFloat bar.close,
             volume := pyFloat bar.volume,
             gatewayName := st.gatewayName } : BarData)) ∧
    (∀ e : String, (query_history st req (.error e)).2.2 = []) := by
  constructor
  · intro bars
    simp [query_history, hq]
  · intro e
    simp [query_history, hq]

/-- Witness for C3: one candlestick returned, and an SDK timeout. -/
theorem query_history_spec_witness :
    (query_history sampleConnected sampleHistoryReq
        (.ok [{ timestamp := 1700000000, «open» := 10, high := 12, low := 9,
                close := 11, volume := 1000 }])).2.2 =
      [{ symbol := "700", exchange := Exchange.SEHK, datetime := 1700000000,
         interval := Interval.DAILY, openPrice := pyFloat 10,
         highPrice := pyFloat 12, lowPrice := pyFloat 9,
         closePrice := pyFloat 11, volume := pyFloat 1000,
         gatewayName := "LONGPORT" }] ∧
    (query_history sampleConnected sampleHistoryReq (.error "timeout")).2.2 = [] :=
  ⟨(query_history_spec sampleConnected sampleHistoryReq rfl).1
      [{ timestamp := 1700000000, «open» := 10, high := 12, low := 9,
         close := 11, volume := 1000 }],
   (query_history_spec sampleConnected sampleHistoryReq rfl).2 "timeout"⟩

/-- C5 counterexample: a balance response with TWO accounts, one cash
entry each, yields only ONE account event — `query_account` reads
`accounts[0]` only, so the second account's entries are never emitted,
refuting "one event per cash entry of each account" (which demands two
events here). -/
theorem query_account_all_accounts_cex :
    (accountEvents (query_account sampleConnected
        (.ok [{ cashInfos := [{ currency := "HKD", withdrawCash := 1,
                                frozenCash := 0, availableCash := 1 }] },
              { cashInfos := [{ currency := "USD", withdrawCash := 2,
                                frozenCash := 0, availableCash := 2 }] }])).2).length
      = 1 ∧
    (([{ cashInfos := [{ currency := "HKD", withdrawCash := 1,
                         frozenCash := 0, availableCash := 1 }] },
       { cashInfos := [{ currency := "USD", withdrawCash := 2,
                         frozenCash := 0, availableCash := 2 }] }] :
        List Account).flatMap Account.cashInfos).length = 2 := by
  constructor <;> rfl

/-- C5 amended: `query_account` emits one account event per cash entry of
the FIRST returned account only (zero accounts → zero events); later
accounts are ignored. -/
theorem query_account_only_first_account (st : GatewayState)
    (ht : st.tradeCtxInit = true) (accounts : List Account) :
    accountEvents (query_account st (.ok accounts)).2 =
      (accounts.head?.elim [] Account.cashInfos).map fun cash_info =>
        { accountid := cash_info.currency
          balance := pyFloat cash_info.withdrawCash
          frozen := pyFloat cash_info.frozenCash
          gatewayName := st.gatewayName } := by
  cases accounts with
  | nil => simpa [Option.elim] using query_account_ok_nil st ht
  | cons account rest =>
      simpa [Option.elim] using query_account_ok_cons st ht account rest

/-- Witness for amended C5: the two-account input again — the emitted
events are exactly the first account's single HKD entry. -/
theorem query_account_only_first_account_witness :
    accountEvents (query_account sampleConnected
        (.ok [{ cashInfos := [{ currency := "HKD", withdrawCash := 1,
                                frozenCash := 0, availableCash := 1 }] },
              { cashInfos := [{ currency := "USD", withdrawCash := 2,
                                frozenCash := 0, availableCash := 2 }] }])).2 =
      [{ accountid := "HKD", balance := pyFloat 1, frozen := pyFloat 0,
         gatewayName := "LONGPORT" }] :=
  query_account_only_first_account sampleConnected rfl
    [{ cashInfos := [{ currency := "HKD", withdrawCash := 1,
                       frozenCash := 0, availableCash := 1 }] },
     { cashInfos := [{ currency := "USD", withdrawCash := 2,
                       frozenCash := 0, availableCash := 2 }] }]

theorem step_tick_keys_mono (st : GatewayState) (op : Op) (k : String)
    (hk : k ∈ dictKeys st.ticks) : k ∈ dictKeys (step st op).ticks := by
  cases op with
  | connect sdk =>
      cases sdk <;> simpa [step, connect] using hk
  | close => simpa [step, close] using hk
  | subscribe req sdk now =>
      by_cases hq : st.quoteCtxInit
      · cases sdk with
        | error e => simpa [step, subscribe, hq] using hk
        | ok u =>
            simp only [step, subscribe, hq, Bool.not_true, Bool.false_eq_true,
              if_false]
            exact mem_dictKeys_dictInsert st.ticks _ k _ hk
      · simp only [Bool.not_eq_true] at hq
        simpa [step, subscribe, hq] using hk
  | send_order req sdk now =>
      by_cases ht : st.tradeCtxInit <;> cases sdk <;>
        simp_all [step, send_order]
  | cancel_order req sdk =>
      by_cases ht : st.tradeCtxInit <;> cases sdk <;>
        simp_all [step, cancel_order]
  | query_account sdk =>
      by_cases ht : st.tradeCtxInit
      · cases sdk with
        | error e => simpa [step, query_account, ht] using hk
        | ok accounts =>
            cases accounts <;> simp_all [step, query_account]
      · simp_all [step, query_account]
  | query_position sdk =>
      by_cases ht : st.tradeCtxInit <;> cases sdk <;>
        simp_all [step, query_position]
  | query_history req sdk =>
      by_cases hq : st.quoteCtxInit <;> cases sdk <;>
        simp_all [step, query_history]
  | on_quote symbol event now =>
      cases hget : dictGet st.ticks symbol with
      | none => simpa [step, on_quote, hget] using hk
      | some tick =>
          simp only [step, on_quote, hget]
          exact mem_dictKeys_dictInsert st.ticks _ k _ hk

/-- C9: no adapter operation removes a tick-cache key — over every
sequence of operations (connect, close, subscribe, send_order,
cancel_order, queries, on_quote) the set of SDK-symbol keys only grows:
any key present at the start is still present at the end.  `subscribe`
inserts or replaces (`dictInsert`) and `on_quote` replaces at an existing
key, so an entry created by `subscribe` persists for the adapter's
lifetime. -/
theorem tick_cache_monotone (st : GatewayState) (ops : List Op) (k : String)
    (hk : k ∈ dictKeys st.ticks) : k ∈ dictKeys (run st ops).ticks := by
  induction ops generalizing st with
  | nil => exact hk
  | cons op rest ih => exact ih (step st op) (step_tick_keys_mono st op k hk)

/-- Witness for C9: a cache holding "700.HK" still holds it after a
close, a quote push, a cancel and a successful order. -/
theorem tick_cache_monotone_witness :
    "700.HK" ∈ dictKeys (run
      { sampleConnected with ticks :=
          [("700.HK", { symbol := "700", exchange := Exchange.SEHK,
                        datetime := 0, gatewayName := "LONGPORT" })] }
      [Op.close,
       Op.on_quote "700.HK"
         { lastDone := 1, volume := 2, «open» := 3, high := 4, low := 5,
           prevClose := 6 } 9,
       Op.cancel_order { orderid := "1" } (.ok ()),
       Op.send_order sampleOrderReq (.ok { orderId := "9001" }) 10]).ticks :=
  tick_cache_monotone
    { sampleConnected with ticks :=
        [("700.HK", { symbol := "700", exchange := Exchange.SEHK,
                      datetime := 0, gatewayName := "LONGPORT" })] }
    [Op.close,
     Op.on_quote "700.HK"
       { lastDone := 1, volume := 2, «open» := 3, high := 4, low := 5,
         prevClose := 6 } 9,
     Op.cancel_order { orderid := "1" } (.ok ()),
     Op.send_order sampleOrderReq (.ok { orderId := "9001" }) 10]
    "700.HK" (by simp [dictKeys])

/-- C10: while both contexts are uninitialised (before a successful
connect), every operation is a guarded no-op: `subscribe` returns
`.ok` with the state unchanged and no events for EVERY SDK outcome (so
the SDK is never consulted and no tick record is inserted), `cancel_order`
likewise, `send_order` returns `""` with no events, `query_history`
returns `[]` with the state unchanged, and `query_account` /
`query_position` emit no account / position events and leave the state
unchanged.  All are total functions, so no exception is raised. -/
theorem disconnected_noop (st : GatewayState)
    (hq : st.quoteCtxInit = false) (ht : st.tradeCtxInit = false) :
    (∀ (req : SubscribeRequest) (sdk : Except String Unit) (now : Nat),
      subscribe st req sdk now = .ok (st, [])) ∧
    (∀ (req : CancelRequest) (sdk : Except String Unit),
      cancel_order st req sdk = (st, [])) ∧
    (∀ (req : OrderRequest) (sdk : Except String SubmitOrderResponse)
        (now : Nat), send_order st req sdk now = (st, [], "")) ∧
    (∀ (req : HistoryRequest) (sdk : Except String (List Candlestick)),
      (query_history st req sdk).1 = st ∧
      (query_history st req sdk).2.2 = []) ∧
    (∀ sdk : Except String (List Account),
      (query_account st sdk).1 = st ∧
      accountEvents (query_account st sdk).2 = []) ∧
    (∀ sdk : Except String StockPositionsResponse,
      (query_position st sdk).1 = st ∧
      positionEvents (query_position st sdk).2 = []) := by
  refine ⟨?_, ?_, ?_, ?_, ?_, ?_⟩ <;> intros <;>
    simp [subscribe, cancel_order, send_order, query_history, query_account,
      query_position, hq, ht, accountEvents, positionEvents]

/-- Witness for C10: a freshly constructed gateway, concrete requests,
and SDK outcomes that would succeed if consulted. -/
theorem disconnected_noop_witness :
    subscribe (initState "LONGPORT")
      { symbol := "700", exchange := Exchange.SEHK } (.ok ()) 0 =
      .ok (initState "LONGPORT", []) ∧
    send_order (initState "LONGPORT") sampleOrderReq
      (.ok { orderId := "1" }) 0 = (initState "LONGPORT", [], "") ∧
    (query_history (initState "LONGPORT") sampleHistoryReq
      (.ok [])).2.2 = [] :=
  ⟨(disconnected_noop (initState "LONGPORT") rfl rfl).1
      { symbol := "700", exchange := Exchange.SEHK } (.ok ()) 0,
   (disconnected_noop (initState "LONGPORT") rfl rfl).2.2.1
      sampleOrderReq (.ok { orderId := "1" }) 0,
   ((disconnected_noop (initState "LONGPORT") rfl rfl).2.2.2.1
      sampleHistoryReq (.ok [])).2⟩

end LongPort
